import Mathlib

/-!
Verification of the client-side authentication plumbing of the Valund
repository: the BankID polling loops, the token-refresh interceptor, the
login rate limiter, the CSRF retry wrapper, logout / getCurrentUser error
handling and the password-strength checker.  Each definition is a shallow
embedding of the corresponding TypeScript function; the source file and
line ranges are given in the doc comments.  Variant suffixes: `Auth` /
`…5` for `src/frontend/src/api/auth.ts` and `src/unnamed/part_005`,
`P3` for `src/unnamed/part_003`, `P2` for `src/unnamed/part_002`,
`12` for `src/unnamed/part_012`.
-/

/-- A user object as returned by the backend; the client code treats it
opaquely, so only an identifier is modelled. -/
structure User where
  id : Nat
deriving DecidableEq, Repr

/-! ## BankID polling (`useBankIDAuth`)

`src/unnamed/part_005` lines 458-494 and 697-742, `src/unnamed/part_012`
lines 63-90.  The loop issues `bankidStart`, then polls `bankidStatus`
every `pollInterval` ms, at most `maxAttempts` times. -/

/-- `pollInterval = 2000` in both variants. -/
def pollIntervalMs : Nat := 2000

/-- `maxAttempts = 60` in both variants. -/
def maxAttempts : Nat := 60

/-- Status values of a `bankidStatus` response body. -/
inductive BankIDStatus
  | pending
  | failed
  | complete
  | cancelled
deriving DecidableEq, Repr

/-- A `bankidStatus` response body: `{ status, user? }`. -/
structure BankIDStatusResponse where
  status : BankIDStatus
  user : Option User
deriving DecidableEq, Repr

/-- Outcome of one `authApi.bankidStatus` call as seen by the part_005
loop: an HTTP success with a body, a rejection without a `.response`
object (network error), or a rejection with a `.response` (API error). -/
inductive PollOutcome
  | response (r : BankIDStatusResponse)
  | networkError
  | apiError (msg : String)
deriving DecidableEq, Repr

/-- Outcome of one `authApi.bankidStatus` call in the part_012 loop,
which has no try/catch, so every rejection propagates alike. -/
inductive PollOutcome12
  | response (r : BankIDStatusResponse)
  | httpError (msg : String)
deriving DecidableEq, Repr

/-- How the `mutationFn` promise settles. -/
inductive BankIDResult
  | success (u : User)
  | failure (msg : String)
deriving DecidableEq, Repr

/-- Result of a run of the polling loop together with the number of
`bankidStatus` calls made and the total `setTimeout` waiting performed. -/
structure PollTrace where
  result : BankIDResult
  polls : Nat
  sleptMs : Nat
deriving DecidableEq, Repr

/-- Account for one more loop iteration: one `setTimeout(pollInterval)`
wait followed by one `bankidStatus` call, before the rest of the trace. -/
def contStep (t : PollTrace) : PollTrace :=
  { t with polls := t.polls + 1, sleptMs := t.sleptMs + pollIntervalMs }

/-- The `while (attempts < maxAttempts)` loop of `useBankIDAuth` in
part_005 (lines 464-493 and 700-742).  `k` is the 0-based iteration
index (`env k` is what the `k+1`-st `bankidStatus` call does) and `fuel`
is `maxAttempts - attempts`, the loop variant.  Iteration body: increment
`attempts`, await `setTimeout(pollInterval)`, call `bankidStatus`; a
response with status `complete` and a user is returned; a `failed` or
`cancelled` status makes the body `throw new Error(...)`, but that throw
happens inside the `try`, and the `catch` continues the loop for every
error without a `.response` field - which such an `Error` is - so those
statuses fall through to the next iteration exactly like `pending`; an
axios error carrying a `.response` is re-thrown out of the loop.  When
the fuel is exhausted the code calls `bankidCancel` and throws the
timeout error. -/
def bankidGo5 (env : Nat → PollOutcome) : Nat → Nat → PollTrace
  | _, 0 => ⟨.failure "BankID authentication timed out", 0, 0⟩
  | k, fuel+1 =>
    match env k with
    | .response ⟨.complete, some u⟩ => ⟨.success u, 1, pollIntervalMs⟩
    | .response _ => contStep (bankidGo5 env (k+1) fuel)
    | .networkError => contStep (bankidGo5 env (k+1) fuel)
    | .apiError msg => ⟨.failure msg, 1, pollIntervalMs⟩

/-- The whole part_005 `mutationFn` after a successful `bankidStart`. -/
def bankidRun5 (env : Nat → PollOutcome) : PollTrace :=
  bankidGo5 env 0 maxAttempts

/-- The `while (tries++ < 60)` loop of `useBankIDAuth` in part_012
(lines 66-78): sleep 2000 ms, poll; `complete` with a user returns the
user, `failed` throws `Error('BankID failed')` out of the loop (there is
no try/catch), anything else keeps polling; an HTTP error rejects the
whole mutation; after 60 polls it throws `Error('BankID timeout')`. -/
def bankidGo12 (env : Nat → PollOutcome12) : Nat → Nat → PollTrace
  | _, 0 => ⟨.failure "BankID timeout", 0, 0⟩
  | k, fuel+1 =>
    match env k with
    | .response ⟨.complete, some u⟩ => ⟨.success u, 1, pollIntervalMs⟩
    | .response ⟨.failed, _⟩ => ⟨.failure "BankID failed", 1, pollIntervalMs⟩
    | .response _ => contStep (bankidGo12 env (k+1) fuel)
    | .httpError msg => ⟨.failure msg, 1, pollIntervalMs⟩

/-- The whole part_012 `mutationFn` after a successful `bankidStart`. -/
def bankidRun12 (env : Nat → PollOutcome12) : PollTrace :=
  bankidGo12 env 0 maxAttempts

/-- A poll outcome that carries no terminal status: a `pending` response,
or (part_005 only) a rejection without a `.response` object, which the
catch treats as a network error and keeps polling through. -/
def pollNonTerminal5 : PollOutcome → Bool
  | .response r => r.status == .pending
  | .networkError => true
  | .apiError _ => false

/-- Non-terminal poll outcome for the part_012 loop. -/
def pollNonTerminal12 : PollOutcome12 → Bool
  | .response r => r.status == .pending
  | .httpError _ => false

theorem bankidGo5_polls_le (env : Nat → PollOutcome) :
    ∀ fuel k, (bankidGo5 env k fuel).polls ≤ fuel := by
  intro fuel
  induction fuel with
  | zero => intro k; simp [bankidGo5]
  | succ n ih =>
    intro k
    unfold bankidGo5
    rcases h : env k with r | _ | msg
    · rcases r with ⟨s, u⟩
      rcases s <;> rcases u <;> simp [contStep] <;> exact ih _
    · simp [contStep]; exact ih _
    · simp

theorem bankidGo5_slept (env : Nat → PollOutcome) :
    ∀ fuel k,
      (bankidGo5 env k fuel).sleptMs = pollIntervalMs * (bankidGo5 env k fuel).polls := by
  intro fuel
  induction fuel with
  | zero => intro k; simp [bankidGo5]
  | succ n ih =>
    intro k
    unfold bankidGo5
    rcases h : env k with r | _ | msg
    · rcases r with ⟨s, u⟩
      rcases s <;> rcases u <;> simp [contStep, ih (k+1)] <;> ring
    · simp [contStep, ih (k+1)]; ring
    · simp

theorem bankidGo12_polls_le (env : Nat → PollOutcome12) :
    ∀ fuel k, (bankidGo12 env k fuel).polls ≤ fuel := by
  intro fuel
  induction fuel with
  | zero => intro k; simp [bankidGo12]
  | succ n ih =>
    intro k
    unfold bankidGo12
    rcases h : env k with r | msg
    · rcases r with ⟨s, u⟩
      rcases s <;> rcases u <;> simp [contStep] <;> exact ih _
    · simp

theorem bankidGo12_slept (env : Nat → PollOutcome12) :
    ∀ fuel k,
      (bankidGo12 env k fuel).sleptMs = pollIntervalMs * (bankidGo12 env k fuel).polls := by
  intro fuel
  induction fuel with
  | zero => intro k; simp [bankidGo12]
  | succ n ih =>
    intro k
    unfold bankidGo12
    rcases h : env k with r | msg
    · rcases r with ⟨s, u⟩
      rcases s <;> rcases u <;> simp [contStep, ih (k+1)] <;> ring
    · simp

theorem bankidGo5_all_pending (env : Nat → PollOutcome)
    (h : ∀ k, pollNonTerminal5 (env k) = true) :
    ∀ fuel k,
      bankidGo5 env k fuel
        = ⟨.failure "BankID authentication timed out", fuel, pollIntervalMs * fuel⟩ := by
  intro fuel
  induction fuel with
  | zero => intro k; simp [bankidGo5]
  | succ n ih =>
    intro k
    unfold bankidGo5
    rcases hk : env k with r | _ | msg
    · rcases r with ⟨s, u⟩
      have := h k
      rcases s <;> simp [hk, pollNonTerminal5] at this <;>
        rcases u <;> simp [contStep, ih (k+1)] <;> ring
    · simp [contStep, ih (k+1)]; ring
    · have := h k
      simp [hk, pollNonTerminal5] at this

theorem bankidGo12_all_pending (env : Nat → PollOutcome12)
    (h : ∀ k, pollNonTerminal12 (env k) = true) :
    ∀ fuel k,
      bankidGo12 env k fuel
        = ⟨.failure "BankID timeout", fuel, pollIntervalMs * fuel⟩ := by
  intro fuel
  induction fuel with
  | zero => intro k; simp [bankidGo12]
  | succ n ih =>
    intro k
    unfold bankidGo12
    rcases hk : env k with r | msg
    · rcases r with ⟨s, u⟩
      have := h k
      rcases s <;> simp [hk, pollNonTerminal12] at this <;>
        rcases u <;> simp [contStep, ih (k+1)] <;> ring
    · have := h k
      simp [hk, pollNonTerminal12] at this

/-- Claim C1: after `bankidStart` succeeds, `useBankIDAuth` polls
`bankidStatus` at most 60 times, waiting 2000 ms before each poll (the
slept time is exactly 2000 ms per poll), and when no poll yields a
terminal outcome within those 60 attempts the loop stops and the flow
rejects with the timeout error; the loop always terminates (it is a
total function of the environment, with the poll count bounded by 60).
Both the part_005 and the part_012 variants are covered. -/
theorem bankid_polling_bounded_timeout
    (env5 : Nat → PollOutcome) (env12 : Nat → PollOutcome12) :
    (bankidRun5 env5).polls ≤ 60
    ∧ (bankidRun5 env5).sleptMs = 2000 * (bankidRun5 env5).polls
    ∧ (bankidRun12 env12).polls ≤ 60
    ∧ (bankidRun12 env12).sleptMs = 2000 * (bankidRun12 env12).polls
    ∧ ((∀ k, pollNonTerminal5 (env5 k) = true) →
        bankidRun5 env5 = ⟨.failure "BankID authentication timed out", 60, 120000⟩)
    ∧ ((∀ k, pollNonTerminal12 (env12 k) = true) →
        bankidRun12 env12 = ⟨.failure "BankID timeout", 60, 120000⟩) := by
  refine ⟨bankidGo5_polls_le env5 maxAttempts 0,
          bankidGo5_slept env5 maxAttempts 0,
          bankidGo12_polls_le env12 maxAttempts 0,
          bankidGo12_slept env12 maxAttempts 0, ?_, ?_⟩
  · intro h
    simpa [maxAttempts] using bankidGo5_all_pending env5 h maxAttempts 0
  · intro h
    simpa [maxAttempts] using bankidGo12_all_pending env12 h maxAttempts 0

/-- Witness for C1 at the concrete environments that always answer
`pending`: the flow makes exactly 60 polls, sleeps 120000 ms and rejects
with the timeout error. -/
theorem bankid_polling_bounded_timeout_witness :
    bankidRun5 (fun _ => .response ⟨.pending, none⟩)
      = ⟨.failure "BankID authentication timed out", 60, 120000⟩
    ∧ bankidRun12 (fun _ => .response ⟨.pending, none⟩)
      = ⟨.failure "BankID timeout", 60, 120000⟩ :=
  ⟨((bankid_polling_bounded_timeout (fun _ => .response ⟨.pending, none⟩)
      (fun _ => .response ⟨.pending, none⟩)).2.2.2.2.1 (fun _ => by decide)),
   ((bankid_polling_bounded_timeout (fun _ => .response ⟨.pending, none⟩)
      (fun _ => .response ⟨.pending, none⟩)).2.2.2.2.2 (fun _ => by decide))⟩

/-- Claim C5 (code bug, evaluation at the failing input): when every
`bankidStatus` poll answers with status `failed`, the part_005 loop does
not reject with the failure error - its own thrown
`Error('BankID authentication failed')` has no `.response` field, so the
catch classifies it as a network error and keeps polling until the
60-attempt timeout - whereas the part_012 loop rejects with
`BankID failed` on the first poll, as the claim (and the comments and
`onError` mapping of part_005 itself) intend. -/
theorem bankid_failed_status_swallowed :
    bankidRun5 (fun _ => .response ⟨.failed, none⟩)
      = ⟨.failure "BankID authentication timed out", 60, 120000⟩
    ∧ bankidRun12 (fun _ => .response ⟨.failed, none⟩)
      = ⟨.failure "BankID failed", 1, 2000⟩ := by
  constructor <;> decide

/-! ## Token refresh: single-flight flag (response interceptor)

`src/frontend/src/api/auth.ts` lines 67-110 (module-level `isRefreshing`
flag and shared `refreshPromise`) and `src/unnamed/part_003` lines
55-102 (`isRefreshing` flag and `waiters` callback array).  The refresh
path of the 401 interceptor is modelled as a transition system over the
module state: how many `POST refresh/` requests are outstanding, whether
the flag is set, and how many 401-ed requests are parked waiting for the
shared refresh. -/

/-- Module-level interceptor state. -/
structure RefreshState where
  isRefreshing : Bool
  inFlight : Nat
  waiters : Nat
deriving DecidableEq, Repr

/-- Events of the refresh path: a 401 response enters the refresh branch
of the interceptor (the request passed the `_retry` / `refresh/` guard),
or the single outstanding `POST refresh/` settles (successfully or
not). -/
inductive RefreshEvent
  | recv401
  | settle (ok : Bool)
deriving DecidableEq, Repr

/-- One interceptor step.  On a 401: `if (!isRefreshing) { isRefreshing
= true; refreshPromise = post('refresh/') ... }` issues the one refresh
request, otherwise the request only awaits the shared
`refreshPromise` (auth.ts line 99) / pushes a callback onto `waiters`
(part_003 line 93), issuing nothing.  When the refresh settles, the
`finally` block (auth.ts lines 91-94) resp. both branches of part_003
(lines 78-85) reset `isRefreshing` and drain the queue. -/
def refreshStep : RefreshState → RefreshEvent → RefreshState
  | s, .recv401 =>
    if s.isRefreshing then { s with waiters := s.waiters + 1 }
    else { isRefreshing := true, inFlight := s.inFlight + 1, waiters := s.waiters }
  | s, .settle _ =>
    if s.inFlight = 0 then s
    else { isRefreshing := false, inFlight := s.inFlight - 1, waiters := 0 }

/-- Module initialisation: `let isRefreshing = false`, nothing in
flight, no waiters. -/
def refreshInit : RefreshState := ⟨false, 0, 0⟩

/-- The interceptor state after a sequence of events from module load. -/
def refreshRun (evs : List RefreshEvent) : RefreshState :=
  evs.foldl refreshStep refreshInit

/-- The invariant tying the flag to the outstanding refresh requests. -/
def RefreshInv (s : RefreshState) : Prop :=
  s.inFlight = if s.isRefreshing then 1 else 0

theorem refreshStep_inv {s : RefreshState} (h : RefreshInv s) (e : RefreshEvent) :
    RefreshInv (refreshStep s e) := by
  rcases e with _ | ok <;>
    rcases s with ⟨flag, n, w⟩ <;> rcases flag <;>
      simp_all [RefreshInv, refreshStep]

theorem refreshRun_inv (evs : List RefreshEvent) : RefreshInv (refreshRun evs) := by
  have main : ∀ (l : List RefreshEvent) (s : RefreshState),
      RefreshInv s → RefreshInv (l.foldl refreshStep s) := by
    intro l
    induction l with
    | nil => intro s hs; simpa using hs
    | cons e rest ih => intro s hs; exact ih _ (refreshStep_inv hs e)
  exact main evs refreshInit (by simp [RefreshInv, refreshInit])

/-- Claim C2: at any reachable moment at most one `POST refresh/` is in
flight; a 401 arriving while `isRefreshing` is set issues no second
refresh request (the in-flight count is unchanged) and instead parks the
request as one more waiter on the shared refresh; and when the in-flight
refresh settles (either way) the flag is cleared. -/
theorem refresh_single_flight (evs : List RefreshEvent) :
    (refreshRun evs).inFlight ≤ 1
    ∧ ((refreshRun evs).isRefreshing = true →
        (refreshStep (refreshRun evs) .recv401).inFlight = (refreshRun evs).inFlight
        ∧ (refreshStep (refreshRun evs) .recv401).waiters = (refreshRun evs).waiters + 1)
    ∧ (∀ ok : Bool, (refreshRun evs).isRefreshing = true →
        (refreshStep (refreshRun evs) (.settle ok)).isRefreshing = false) := by
  have hinv := refreshRun_inv evs
  rcases hs : refreshRun evs with ⟨flag, n, w⟩
  rw [hs] at hinv
  unfold RefreshInv at hinv
  rcases flag <;> simp_all [refreshStep]

/-- Witness for C2: after one 401 started a refresh, a second 401 leaves
the in-flight count at 1 and parks one waiter. -/
theorem refresh_single_flight_witness :
    (refreshStep (refreshRun [RefreshEvent.recv401]) RefreshEvent.recv401).inFlight
      = (refreshRun [RefreshEvent.recv401]).inFlight
    ∧ (refreshStep (refreshRun [RefreshEvent.recv401]) RefreshEvent.recv401).waiters
      = (refreshRun [RefreshEvent.recv401]).waiters + 1 :=
  (refresh_single_flight [RefreshEvent.recv401]).2.1 (by decide)

/-! ## Token refresh: settlement of queued requests

`src/unnamed/part_003` lines 71-102 and
`src/frontend/src/api/auth.ts` lines 96-106.  What happens to the
requests queued behind an in-flight refresh when that refresh settles. -/

/-- The fate of one queued request once the refresh settles: re-sent
exactly once with the given Authorization header, completed with an
error, or never settled at all. -/
inductive QueuedFate
  | retried (authHeader : String)
  | errored
  | pendingForever
deriving DecidableEq, Repr

/-- How the single in-flight `POST refresh/` settles. -/
inductive RefreshOutcome
  | ok (access : String)
  | failed
deriving DecidableEq, Repr

/-- auth.ts lines 98-105: every queued request `await`s the shared
`refreshPromise`; on success it sets `Authorization = Bearer <newToken>`
and re-issues the request once, on failure the `catch` clears the token
and re-throws, so the queued request completes with an error. -/
def settleWaitersAuth (ws : List String) : RefreshOutcome → List (String × QueuedFate)
  | .ok access => ws.map (fun w => (w, .retried ("Bearer " ++ access)))
  | .failed => ws.map (fun w => (w, .errored))

/-- part_003 lines 77-84 and 92-101: on success `waiters.forEach(resolve
(data.access))` re-issues each queued request once with
`Authorization = Bearer <access>`; on failure the catch does
`waiters = []` without invoking any queued callback, so the promises
created at line 92 never settle. -/
def settleWaitersP3 (ws : List String) : RefreshOutcome → List (String × QueuedFate)
  | .ok access => ws.map (fun w => (w, .retried ("Bearer " ++ access)))
  | .failed => ws.map (fun w => (w, .pendingForever))

/-- Claim C6 counterexample: a request queued in the part_003 variant
when the refresh fails is left pending forever - it does not complete
with an error, contrary to the claim. -/
theorem refresh_queue_pending_forever_cex :
    settleWaitersP3 ["GET me/"] .failed = [("GET me/", .pendingForever)]
    ∧ ("GET me/", QueuedFate.errored) ∉ settleWaitersP3 ["GET me/"] .failed := by
  constructor <;> decide

theorem map_fst_const_pair (ws : List String) (c : QueuedFate) :
    (ws.map (fun w => (w, c))).map Prod.fst = ws := by
  induction ws with
  | nil => rfl
  | cons a l ih => simp [ih]

/-- Claim C6 as amended: every request queued behind an in-flight
refresh is, once that refresh succeeds, retried exactly once (the output
lists one fate per queued request, in order) carrying the refreshed
access token in its Authorization header, in both variants.  When the
refresh fails, in the auth.ts variant every queued request completes
with an error; in the part_003 variant the waiters array is cleared
without invoking the queued callbacks, so every queued request is left
pending forever. -/
theorem refresh_queue_settlement (ws : List String) (access w : String)
    (hw : w ∈ ws) :
    ((settleWaitersAuth ws (.ok access)).map Prod.fst = ws)
    ∧ ((settleWaitersAuth ws .failed).map Prod.fst = ws)
    ∧ ((settleWaitersP3 ws (.ok access)).map Prod.fst = ws)
    ∧ ((settleWaitersP3 ws .failed).map Prod.fst = ws)
    ∧ ((w, QueuedFate.retried ("Bearer " ++ access)) ∈ settleWaitersAuth ws (.ok access))
    ∧ ((w, QueuedFate.errored) ∈ settleWaitersAuth ws .failed)
    ∧ (∀ p ∈ settleWaitersAuth ws (.ok access), p.2 = .retried ("Bearer " ++ access))
    ∧ (∀ p ∈ settleWaitersAuth ws .failed, p.2 = .errored)
    ∧ ((w, QueuedFate.retried ("Bearer " ++ access)) ∈ settleWaitersP3 ws (.ok access))
    ∧ ((w, QueuedFate.pendingForever) ∈ settleWaitersP3 ws .failed)
    ∧ (∀ p ∈ settleWaitersP3 ws .failed, p.2 = .pendingForever) := by
  refine ⟨?_, ?_, ?_, ?_, ?_, ?_, ?_, ?_, ?_, ?_, ?_⟩
  · exact map_fst_const_pair ws _
  · exact map_fst_const_pair ws _
  · exact map_fst_const_pair ws _
  · exact map_fst_const_pair ws _
  · exact List.mem_map_of_mem _ hw
  · exact List.mem_map_of_mem _ hw
  · simp only [settleWaitersAuth]
    intro p hp
    rcases List.mem_map.mp hp with ⟨x, hx, rfl⟩
    rfl
  · simp only [settleWaitersAuth]
    intro p hp
    rcases List.mem_map.mp hp with ⟨x, hx, rfl⟩
    rfl
  · exact List.mem_map_of_mem _ hw
  · exact List.mem_map_of_mem _ hw
  · simp only [settleWaitersP3]
    intro p hp
    rcases List.mem_map.mp hp with ⟨x, hx, rfl⟩
    rfl

/-- Witness for C6 (amended) at one queued request and one token. -/
theorem refresh_queue_settlement_witness :
    ((settleWaitersAuth ["GET me/"] (.ok "tok")).map Prod.fst = ["GET me/"])
    ∧ ("GET me/", QueuedFate.retried "Bearer tok")
        ∈ settleWaitersAuth ["GET me/"] (.ok "tok") :=
  ⟨(refresh_queue_settlement ["GET me/"] "tok" "GET me/" (by decide)).1,
   (refresh_queue_settlement ["GET me/"] "tok" "GET me/" (by decide)).2.2.2.2.1⟩

/-! ## HTTP error model and the CSRF retry wrapper (`withCsrfRetry`)

`src/frontend/src/api/auth.ts` lines 178-202 and `src/unnamed/part_003`
lines 141-160. -/

/-- The part of an HTTP error response the auth code inspects:
`response.status`, `response.data.detail` and `response.statusText`. -/
structure HttpResponse where
  status : Nat
  detail : Option String
  statusText : String
deriving DecidableEq, Repr

/-- A rejected request as the catch blocks see it: whether
`axios.isAxiosError` holds and the optional `.response` object. -/
structure ReqError where
  isAxios : Bool
  response : Option HttpResponse
deriving DecidableEq, Repr

/-- `error.response?.status`. -/
def ReqError.respStatus (e : ReqError) : Option Nat :=
  e.response.map (·.status)

/-- JavaScript `haystack.includes(needle)` on character lists: the
needle occurs as a contiguous segment of the haystack. -/
def containsSeg (pat : List Char) : List Char → Bool
  | [] => pat.isEmpty
  | c :: cs => pat.isPrefixOf (c :: cs) || containsSeg pat cs

/-- `s.toLowerCase()` as a character list. -/
def lowerList (s : String) : List Char :=
  s.toList.map Char.toLower

/-- `(s ?? '').toLowerCase().includes('csrf')`. -/
def mentionsCsrf (s : String) : Bool :=
  containsSeg "csrf".toList (lowerList s)

/-- auth.ts lines 188-191: `axios.isAxiosError(err) &&
err.response?.status === 403 && (err.response?.data?.detail ??
'').toLowerCase().includes('csrf')`. -/
def isCsrf403Auth (e : ReqError) : Bool :=
  e.isAxios && e.respStatus == some 403
    && mentionsCsrf ((e.response.bind (·.detail)).getD "")

/-- part_003 lines 146-153: like the auth.ts check, except that a 403
also qualifies when `response.statusText.toLowerCase()` contains
`forbidden`, even if the detail never mentions CSRF. -/
def isCsrf403P3 (e : ReqError) : Bool :=
  e.isAxios && e.respStatus == some 403
    && (((e.response.bind (·.detail)).map mentionsCsrf).getD false
        || containsSeg "forbidden".toList
             (lowerList ((e.response.map (·.statusText)).getD "")))

/-- What one invocation of the wrapped `fn` does, indexed by attempt. -/
inductive CallOutcome (α : Type)
  | ok (v : α)
  | err (e : ReqError)
deriving DecidableEq, Repr

/-- How a modelled async function settles: resolve with a value, or
reject with (the model of) a thrown error. -/
inductive RunResult (α : Type)
  | ok (v : α)
  | error (e : ReqError)
deriving DecidableEq, Repr

/-- Result of a `withCsrfRetry` run: how many times `fn` was invoked,
how many `GET csrf/` primes were issued, and the final outcome (an
`error e` is passed to `handleError`, which always throws). -/
structure CsrfTrace (α : Type) where
  calls : Nat
  seeds : Nat
  result : RunResult α
deriving DecidableEq, Repr

/-- The `for (attempt = 0; attempt <= maxRetries; attempt++)` loop of
auth.ts lines 178-202.  `fuel` is `maxRetries + 1 - attempt`; the body
either returns `fn()`s value, or on a CSRF 403 with `attempt <
maxRetries` awaits `seedCsrf()` and continues, or breaks, after which
`handleError(lastError)` throws.  The loop can never exit through its
condition (every body iteration returns, continues or breaks), so the
fuel-exhausted case is unreachable when the fuel starts at
`maxRetries + 1`. -/
def csrfGoAuth {α : Type} (env : Nat → CallOutcome α) (maxRetries : Nat) :
    Nat → Nat → CsrfTrace α
  | _, 0 => ⟨0, 0, .error ⟨false, none⟩⟩
  | attempt, fuel+1 =>
    match env attempt with
    | .ok v => ⟨1, 0, .ok v⟩
    | .err e =>
      if isCsrf403Auth e = true ∧ attempt < maxRetries then
        let t := csrfGoAuth env maxRetries (attempt+1) fuel
        ⟨t.calls + 1, t.seeds + 1, t.result⟩
      else ⟨1, 0, .error e⟩

/-- `withCsrfRetry` of auth.ts with its default `maxRetries = 1`, as
every call site uses it. -/
def withCsrfRetryAuth {α : Type} (env : Nat → CallOutcome α) : CsrfTrace α :=
  csrfGoAuth env 1 0 2

/-- `withCsrfRetry` of part_003 lines 141-160: a single try; on a CSRF
403 (by the part_003 check) it primes the cookie and re-invokes `fn`
once, whose failure propagates; any other failure goes to
`handleError`. -/
def withCsrfRetryP3 {α : Type} (env : Nat → CallOutcome α) : CsrfTrace α :=
  match env 0 with
  | .ok v => ⟨1, 0, .ok v⟩
  | .err e =>
    if isCsrf403P3 e = true then
      match env 1 with
      | .ok v => ⟨2, 1, .ok v⟩
      | .err e2 => ⟨2, 1, .error e2⟩
    else ⟨1, 0, .error e⟩

/-- A 403 whose detail does not mention CSRF but whose statusText is the
standard `Forbidden` reason phrase. -/
def forbidden403 : ReqError :=
  ⟨true, some ⟨403, some "Permission denied.", "Forbidden"⟩⟩

/-- Claim C4 counterexample: `forbidden403` is not a CSRF 403 in the
claim's sense (its detail does not mention CSRF), yet the part_003
variant of `withCsrfRetry` primes the cookie and retries it - the run
makes two calls and one seed and even succeeds - instead of reporting
the failure without further retries. -/
theorem csrf_retry_forbidden_cex :
    isCsrf403Auth forbidden403 = false
    ∧ mentionsCsrf ((forbidden403.response.bind (·.detail)).getD "") = false
    ∧ withCsrfRetryP3 (fun n => if n = 0 then .err forbidden403 else .ok 0)
        = ⟨2, 1, .ok 0⟩ := by
  refine ⟨by decide, by decide, by decide⟩

/-- Claim C4 as amended: for every request wrapped in `withCsrfRetry`,
a first failure that is a CSRF 403 leads to exactly one `GET csrf/`
prime and exactly one retry, whose outcome - success or any failure,
CSRF or not - is final; a first failure that is not a CSRF 403 is
reported as an error with no retry and no prime.  In the auth.ts variant
a CSRF 403 is a 403 whose detail mentions `csrf`, exactly as the claim
states; in the part_003 variant a 403 whose statusText contains
`forbidden` is treated the same way even when the detail never mentions
CSRF. -/
theorem csrf_retry_once (α : Type) (env : Nat → CallOutcome α) (v : α)
    (e e2 : ReqError) :
    (env 0 = .ok v → withCsrfRetryAuth env = ⟨1, 0, .ok v⟩
      ∧ withCsrfRetryP3 env = ⟨1, 0, .ok v⟩)
    ∧ (env 0 = .err e → isCsrf403Auth e = false →
        withCsrfRetryAuth env = ⟨1, 0, .error e⟩)
    ∧ (env 0 = .err e → isCsrf403P3 e = false →
        withCsrfRetryP3 env = ⟨1, 0, .error e⟩)
    ∧ (env 0 = .err e → isCsrf403Auth e = true → env 1 = .ok v →
        withCsrfRetryAuth env = ⟨2, 1, .ok v⟩)
    ∧ (env 0 = .err e → isCsrf403Auth e = true → env 1 = .err e2 →
        withCsrfRetryAuth env = ⟨2, 1, .error e2⟩)
    ∧ (env 0 = .err e → isCsrf403P3 e = true → env 1 = .ok v →
        withCsrfRetryP3 env = ⟨2, 1, .ok v⟩)
    ∧ (env 0 = .err e → isCsrf403P3 e = true → env 1 = .err e2 →
        withCsrfRetryP3 env = ⟨2, 1, .error e2⟩) := by
  refine ⟨?_, ?_, ?_, ?_, ?_, ?_, ?_⟩
  · intro h0
    constructor <;> simp [withCsrfRetryAuth, csrfGoAuth, withCsrfRetryP3, h0]
  · intro h0 hc
    simp [withCsrfRetryAuth, csrfGoAuth, h0, hc]
  · intro h0 hc
    simp [withCsrfRetryP3, h0, hc]
  · intro h0 hc h1
    simp [withCsrfRetryAuth, csrfGoAuth, h0, h1, hc]
  · intro h0 hc h1
    simp [withCsrfRetryAuth, csrfGoAuth, h0, h1, hc]
  · intro h0 hc h1
    simp [withCsrfRetryP3, h0, h1, hc]
  · intro h0 hc h1
    simp [withCsrfRetryP3, h0, h1, hc]

/-- A 403 whose detail does mention CSRF. -/
def csrf403 : ReqError :=
  ⟨true, some ⟨403, some "CSRF Failed: CSRF token missing.", "Forbidden"⟩⟩

/-- Witness for C4 (amended): a first CSRF 403 followed by a success is
retried exactly once with one seed in the auth.ts variant. -/
theorem csrf_retry_once_witness :
    withCsrfRetryAuth (fun n => if n = 0 then .err csrf403 else .ok 7)
      = ⟨2, 1, .ok 7⟩ :=
  (csrf_retry_once Nat (fun n => if n = 0 then .err csrf403 else .ok 7) 7
      csrf403 csrf403).2.2.2.1 rfl (by decide) rfl

/-! ## Login rate limiter (`RateLimiter`, `authApi.login`)

`src/frontend/src/api/auth.ts` lines 205-255 and `src/unnamed/part_003`
lines 162-196.  The `Map<string, {count, resetTime}>` is modelled as an
association list with JavaScript `Map.set` / `Map.delete` semantics. -/

/-- One `attempts` map entry: `{ count, resetTime }`. -/
structure RateRecord where
  count : Nat
  resetTime : Nat
deriving DecidableEq, Repr

/-- The `attempts` map of a `RateLimiter`. -/
abbrev RateMap := List (String × RateRecord)

/-- `this.attempts.set(key, v)`. -/
def rmSet (m : RateMap) (k : String) (v : RateRecord) : RateMap :=
  (k, v) :: m.filter (fun p => p.1 != k)

/-- `this.attempts.delete(key)` (the `clear` method of auth.ts). -/
def rmDelete (m : RateMap) (k : String) : RateMap :=
  m.filter (fun p => p.1 != k)

/-- `RateLimiter.isAllowed(key, maxAttempts, windowMs)` at time `now`
(auth.ts lines 208-223, part_003 lines 164-174, identical): a missing or
expired (`now > resetTime`) record starts a fresh window with count 1;
a live record at the limit refuses; otherwise the count is incremented
in place.  Returns the decision and the updated map. -/
def isAllowed (m : RateMap) (key : String) (maxAtt windowMs now : Nat) :
    Bool × RateMap :=
  match List.lookup key m with
  | none => (true, rmSet m key ⟨1, now + windowMs⟩)
  | some record =>
    if record.resetTime < now then (true, rmSet m key ⟨1, now + windowMs⟩)
    else if maxAtt ≤ record.count then (false, m)
    else (true, rmSet m key ⟨record.count + 1, record.resetTime⟩)

/-- The literal error thrown by a rate-limited login. -/
def rateLimitMsg : String := "Too many login attempts. Try again in 15 minutes."

/-- How one `authApi.login` call settles; `httpSent` records whether the
underlying `POST login/` request was issued at all. -/
structure LoginStep where
  result : RunResult Unit
  httpSent : Bool
deriving DecidableEq, Repr

/-- The error thrown when the limiter refuses (carried as the `detail`
of a synthetic non-axios error so the message is preserved). -/
def rateLimitError : ReqError := ⟨false, some ⟨0, some rateLimitMsg, ""⟩⟩

/-- A placeholder for whatever error the wrapped `POST login/` threw. -/
def loginHttpError : ReqError := ⟨true, none⟩

/-- `authApi.login` of auth.ts (lines 237-255), with the HTTP exchange
abstracted to whether the wrapped `withCsrfRetry(post login/)` resolved:
key `login_<email>`, limits `5` attempts per `15 * 60 * 1000` ms; when
the limiter refuses, the rate-limit error is thrown before any HTTP
request; on success `rateLimiter.clear(key)` removes the record; on
failure the error is re-thrown and the record stays. -/
def loginAuth (m : RateMap) (email : String) (now : Nat) (httpOk : Bool) :
    LoginStep × RateMap :=
  let key := "login_" ++ email
  match isAllowed m key 5 900000 now with
  | (false, m1) => (⟨.error rateLimitError, false⟩, m1)
  | (true, m1) =>
    if httpOk then (⟨.ok (), true⟩, rmDelete m1 key)
    else (⟨.error loginHttpError, true⟩, m1)

/-- `authApi.login` of part_003 (lines 184-196): same limiter and key,
but no `clear` on success - the record survives every outcome. -/
def loginP3 (m : RateMap) (email : String) (now : Nat) (httpOk : Bool) :
    LoginStep × RateMap :=
  let key := "login_" ++ email
  match isAllowed m key 5 900000 now with
  | (false, m1) => (⟨.error rateLimitError, false⟩, m1)
  | (true, m1) =>
    if httpOk then (⟨.ok (), true⟩, m1)
    else (⟨.error loginHttpError, true⟩, m1)

/-- A sequence of auth.ts login calls for one email: each element is a
`(timestamp, did the HTTP login succeed)` pair; returns the final map
and the step outcomes in call order. -/
def runLoginsAuth (email : String) : RateMap → List (Nat × Bool) →
    RateMap × List LoginStep
  | m, [] => (m, [])
  | m, (now, ok) :: rest =>
    match loginAuth m email now ok with
    | (step, m1) =>
      match runLoginsAuth email m1 rest with
      | (m2, steps) => (m2, step :: steps)

theorem lookup_rmSet_self (m : RateMap) (k : String) (v : RateRecord) :
    List.lookup k (rmSet m k v) = some v := by
  simp [rmSet, List.lookup]

theorem isAllowed_fresh {m : RateMap} {key : String} (maxAtt w now : Nat)
    (h : List.lookup key m = none) :
    isAllowed m key maxAtt w now = (true, rmSet m key ⟨1, now + w⟩) := by
  simp [isAllowed, h]

theorem isAllowed_live {m : RateMap} {key : String} {c R : Nat} (maxAtt w now : Nat)
    (h : List.lookup key m = some ⟨c, R⟩) (hnow : now ≤ R) (hc : c < maxAtt) :
    isAllowed m key maxAtt w now = (true, rmSet m key ⟨c + 1, R⟩) := by
  simp only [isAllowed, h]
  rw [if_neg (by omega), if_neg (by omega)]

theorem isAllowed_blocked {m : RateMap} {key : String} {c R : Nat} (maxAtt w now : Nat)
    (h : List.lookup key m = some ⟨c, R⟩) (hnow : now ≤ R) (hc : maxAtt ≤ c) :
    isAllowed m key maxAtt w now = (false, m) := by
  simp only [isAllowed, h]
  rw [if_neg (by omega), if_pos (by omega)]

theorem isAllowed_expired {m : RateMap} {key : String} {c R : Nat} (maxAtt w now : Nat)
    (h : List.lookup key m = some ⟨c, R⟩) (hR : R < now) :
    isAllowed m key maxAtt w now = (true, rmSet m key ⟨1, now + w⟩) := by
  simp only [isAllowed, h]
  rw [if_pos (by omega)]

/-- Claim C3 counterexample: six successful auth.ts login calls for the
same email, all at the same instant (vacuously inside one 15-minute
window): because a successful login clears the record, every call is
allowed and sends its HTTP request - the sixth (and any further) call
does not throw the rate-limit error. -/
theorem login_rate_limit_cex :
    (runLoginsAuth "user@example.com" [] (List.replicate 6 (0, true))).2
      = List.replicate 6 ⟨.ok (), true⟩ := by
  decide

/-- `loginP3` when the limiter allows: the call sends its HTTP request
and leaves the map the limiter produced. -/
theorem loginP3_allowed {m m1 : RateMap} {email : String} {now : Nat} (o : Bool)
    (h : isAllowed m ("login_" ++ email) 5 900000 now = (true, m1)) :
    (loginP3 m email now o).2 = m1 ∧ (loginP3 m email now o).1.httpSent = true := by
  simp only [loginP3, h]
  rcases o <;> simp

/-- `loginP3` when the limiter refuses: the rate-limit error is thrown
with no HTTP request and the map is untouched. -/
theorem loginP3_blocked {m m1 : RateMap} {email : String} {now : Nat} (o : Bool)
    (h : isAllowed m ("login_" ++ email) 5 900000 now = (false, m1)) :
    loginP3 m email now o = (⟨.error rateLimitError, false⟩, m1) := by
  simp only [loginP3, h]

/-- `loginAuth` when the limiter allows and the HTTP login fails. -/
theorem loginAuth_failed {m m1 : RateMap} {email : String} {now : Nat}
    (h : isAllowed m ("login_" ++ email) 5 900000 now = (true, m1)) :
    (loginAuth m email now false).2 = m1 := by
  simp [loginAuth, h]

/-- `loginAuth` when the limiter allows sends the HTTP request. -/
theorem loginAuth_sent {m m1 : RateMap} {email : String} {now : Nat} (o : Bool)
    (h : isAllowed m ("login_" ++ email) 5 900000 now = (true, m1)) :
    (loginAuth m email now o).1.httpSent = true := by
  simp only [loginAuth, h]
  rcases o <;> simp

/-- `loginAuth` when the limiter refuses. -/
theorem loginAuth_blocked {m m1 : RateMap} {email : String} {now : Nat} (o : Bool)
    (h : isAllowed m ("login_" ++ email) 5 900000 now = (false, m1)) :
    loginAuth m email now o = (⟨.error rateLimitError, false⟩, m1) := by
  simp only [loginAuth, h]

/-- Claim C3 as amended: for every email, after 5 login calls whose
timestamps fall inside one 15-minute window and none of which succeeded
(in the auth.ts variant a successful login clears the record via
`rateLimiter.clear`, so the 5 exhausting calls must have failed; in the
part_003 variant, which has no `clear`, they may have any outcomes),
every further login call with that email within the window throws the
rate-limit error without sending an HTTP request and leaves the map
unchanged; once the reset time of the window has passed, the next call
sends its request again and starts a fresh window with count 1. -/
theorem login_rate_limit (email : String) (t1 t2 t3 t4 t5 now now2 : Nat)
    (o1 o2 o3 o4 o5 o o2h : Bool) (mP3 mA : RateMap)
    (h2 : t2 ≤ t1 + 900000) (h3 : t3 ≤ t1 + 900000) (h4 : t4 ≤ t1 + 900000)
    (h5 : t5 ≤ t1 + 900000) (hn : now ≤ t1 + 900000) (hn2 : t1 + 900000 < now2)
    (hmP3 : mP3 = (loginP3 (loginP3 (loginP3 (loginP3 (loginP3 [] email t1 o1).2
        email t2 o2).2 email t3 o3).2 email t4 o4).2 email t5 o5).2)
    (hmA : mA = (loginAuth (loginAuth (loginAuth (loginAuth (loginAuth [] email t1 false).2
        email t2 false).2 email t3 false).2 email t4 false).2 email t5 false).2) :
    loginP3 mP3 email now o = (⟨.error rateLimitError, false⟩, mP3)
    ∧ (loginP3 mP3 email now2 o2h).1.httpSent = true
    ∧ List.lookup ("login_" ++ email) (loginP3 mP3 email now2 false).2
        = some ⟨1, now2 + 900000⟩
    ∧ loginAuth mA email now o = (⟨.error rateLimitError, false⟩, mA)
    ∧ (loginAuth mA email now2 o2h).1.httpSent = true
    ∧ List.lookup ("login_" ++ email) (loginAuth mA email now2 false).2
        = some ⟨1, now2 + 900000⟩ := by
  subst hmP3 hmA
  set K := "login_" ++ email with hK
  set T := t1 + 900000 with hT
  have a1 : isAllowed [] K 5 900000 t1 = (true, rmSet [] K ⟨1, T⟩) :=
    isAllowed_fresh 5 900000 t1 rfl
  have a2 : isAllowed (rmSet [] K ⟨1, T⟩) K 5 900000 t2
      = (true, rmSet (rmSet [] K ⟨1, T⟩) K ⟨2, T⟩) :=
    isAllowed_live 5 900000 t2 (lookup_rmSet_self _ _ _) (by omega) (by omega)
  have a3 : isAllowed (rmSet (rmSet [] K ⟨1, T⟩) K ⟨2, T⟩) K 5 900000 t3
      = (true, rmSet (rmSet (rmSet [] K ⟨1, T⟩) K ⟨2, T⟩) K ⟨3, T⟩) :=
    isAllowed_live 5 900000 t3 (lookup_rmSet_self _ _ _) (by omega) (by omega)
  have a4 : isAllowed (rmSet (rmSet (rmSet [] K ⟨1, T⟩) K ⟨2, T⟩) K ⟨3, T⟩) K 5 900000 t4
      = (true, rmSet (rmSet (rmSet (rmSet [] K ⟨1, T⟩) K ⟨2, T⟩) K ⟨3, T⟩) K ⟨4, T⟩) :=
    isAllowed_live 5 900000 t4 (lookup_rmSet_self _ _ _) (by omega) (by omega)
  have a5 : isAllowed (rmSet (rmSet (rmSet (rmSet [] K ⟨1, T⟩) K ⟨2, T⟩) K ⟨3, T⟩) K ⟨4, T⟩)
        K 5 900000 t5
      = (true, rmSet (rmSet (rmSet (rmSet (rmSet [] K ⟨1, T⟩) K ⟨2, T⟩) K ⟨3, T⟩) K ⟨4, T⟩)
          K ⟨5, T⟩) :=
    isAllowed_live 5 900000 t5 (lookup_rmSet_self _ _ _) (by omega) (by omega)
  have ab : isAllowed
        (rmSet (rmSet (rmSet (rmSet (rmSet [] K ⟨1, T⟩) K ⟨2, T⟩) K ⟨3, T⟩) K ⟨4, T⟩) K ⟨5, T⟩)
        K 5 900000 now
      = (false,
         rmSet (rmSet (rmSet (rmSet (rmSet [] K ⟨1, T⟩) K ⟨2, T⟩) K ⟨3, T⟩) K ⟨4, T⟩) K ⟨5, T⟩) :=
    isAllowed_blocked 5 900000 now (lookup_rmSet_self _ _ _) (by omega) (by omega)
  have ax : isAllowed
        (rmSet (rmSet (rmSet (rmSet (rmSet [] K ⟨1, T⟩) K ⟨2, T⟩) K ⟨3, T⟩) K ⟨4, T⟩) K ⟨5, T⟩)
        K 5 900000 now2
      = (true,
         rmSet (rmSet (rmSet (rmSet (rmSet (rmSet [] K ⟨1, T⟩) K ⟨2, T⟩) K ⟨3, T⟩) K ⟨4, T⟩)
           K ⟨5, T⟩) K ⟨1, now2 + 900000⟩) :=
    isAllowed_expired 5 900000 now2 (lookup_rmSet_self _ _ _) (by omega)
  rw [(loginP3_allowed o1 a1).1, (loginP3_allowed o2 a2).1, (loginP3_allowed o3 a3).1,
      (loginP3_allowed o4 a4).1, (loginP3_allowed o5 a5).1,
      loginAuth_failed a1, loginAuth_failed a2, loginAuth_failed a3,
      loginAuth_failed a4, loginAuth_failed a5]
  refine ⟨loginP3_blocked o ab, (loginP3_allowed o2h ax).2, ?_,
          loginAuth_blocked o ab, loginAuth_sent o2h ax, ?_⟩
  · rw [(loginP3_allowed false ax).1]
    exact lookup_rmSet_self _ _ _
  · rw [loginAuth_failed ax]
    exact lookup_rmSet_self _ _ _

/-- Witness for C3 (amended): with the five exhausting calls at time 0,
the record for `login_e` holds count 5 and reset time 900000, and a
sixth call at time 0 is refused without an HTTP request. -/
theorem login_rate_limit_witness :
    loginP3 [("login_e", ⟨5, 900000⟩)] "e" 0 false
      = (⟨.error rateLimitError, false⟩, [("login_e", ⟨5, 900000⟩)]) :=
  (login_rate_limit "e" 0 0 0 0 0 0 900001 false false false false false false false
      [("login_e", ⟨5, 900000⟩)] [("login_e", ⟨5, 900000⟩)]
      (by omega) (by omega) (by omega) (by omega) (by omega) (by omega)
      (by decide) (by decide)).1

/-! ## The 401 guard of the response interceptor

`src/frontend/src/api/auth.ts` lines 70-79 and `src/unnamed/part_003`
lines 62-70: which rejected responses enter the refresh-and-retry path
at all. -/

/-- The fields of the original request config the guard inspects:
`_retry` and `url` (an absent `url` behaves like one not containing
`refresh/`). -/
structure OriginalRequest where
  retryFlag : Bool
  url : List Char
deriving DecidableEq, Repr

/-- The decision of the 401 branch of the response interceptor. -/
inductive InterceptAction
  | propagate
  | refreshAndRetry (marked : OriginalRequest)
deriving DecidableEq, Repr

/-- The `refresh/` path fragment both guards test for. -/
def refreshSeg : List Char := "refresh/".toList

/-- auth.ts line 77: `if (status === 401 && original && !original._retry
&& !original.url?.includes('refresh/'))` - when it holds, line 78 sets
`original._retry = true` and the refresh path re-issues the marked
request; otherwise the error is re-thrown to the caller. -/
def handle401Auth (status : Option Nat) (original : Option OriginalRequest) :
    InterceptAction :=
  match original with
  | none => .propagate
  | some o =>
    if status == some 401 && !o.retryFlag && !containsSeg refreshSeg o.url then
      .refreshAndRetry { o with retryFlag := true }
    else .propagate

/-- JavaScript `url.endsWith(pat)`. -/
def endsWithSeg (pat : List Char) : List Char → Bool
  | [] => pat.isEmpty
  | c :: cs => pat == c :: cs || endsWithSeg pat cs

/-- part_003 line 67: `if (status !== 401 || !original || original._retry
|| original.url?.endsWith('refresh/')) throw error`, then line 70 sets
`original._retry = true` before entering the refresh path. -/
def handle401P3 (status : Option Nat) (original : Option OriginalRequest) :
    InterceptAction :=
  match original with
  | none => .propagate
  | some o =>
    if status != some 401 || o.retryFlag || endsWithSeg refreshSeg o.url then
      .propagate
    else .refreshAndRetry { o with retryFlag := true }

theorem isPrefixOf_self (l : List Char) : l.isPrefixOf l = true := by
  induction l with
  | nil => rfl
  | cons c cs ih => simp [List.isPrefixOf, ih]

theorem containsSeg_append_self (pat : List Char) :
    ∀ base : List Char, containsSeg pat (base ++ pat) = true := by
  intro base
  induction base with
  | nil =>
    rcases hp : pat with _ | ⟨c, cs⟩
    · rfl
    · simp only [List.nil_append, containsSeg]
      rw [← hp, isPrefixOf_self]
      simp
  | cons b bs ih =>
    simp [containsSeg, ih]

theorem endsWithSeg_append_self (pat : List Char) :
    ∀ base : List Char, endsWithSeg pat (base ++ pat) = true := by
  intro base
  induction base with
  | nil =>
    rcases hp : pat with _ | ⟨c, cs⟩
    · rfl
    · simp only [List.nil_append, endsWithSeg]
      rw [← hp]
      simp
  | cons b bs ih =>
    simp [endsWithSeg, ih]

/-- Claim C7: the refresh-and-retry sequence runs at most once per
request.  A 401 for a request already marked `_retry`, or for a request
to the `refresh/` endpoint itself (a url ending in `refresh/`), is
propagated to the caller without entering the refresh path, in both
variants; and whenever the interceptor does enter the refresh path, the
request it re-issues is marked `_retry`, so a 401 answer to that retried
request is always propagated - the interceptor can never loop. -/
theorem interceptor_401_at_most_once (status status2 : Option Nat)
    (o m : OriginalRequest) (base : List Char) :
    (o.retryFlag = true →
      handle401Auth status (some o) = .propagate
      ∧ handle401P3 status (some o) = .propagate)
    ∧ (o.url = base ++ refreshSeg →
      handle401Auth status (some o) = .propagate
      ∧ handle401P3 status (some o) = .propagate)
    ∧ (handle401Auth status (some o) = .refreshAndRetry m →
      m.retryFlag = true ∧ handle401Auth status2 (some m) = .propagate)
    ∧ (handle401P3 status (some o) = .refreshAndRetry m →
      m.retryFlag = true ∧ handle401P3 status2 (some m) = .propagate) := by
  refine ⟨?_, ?_, ?_, ?_⟩
  · intro hr
    constructor <;> simp [handle401Auth, handle401P3, hr]
  · intro hu
    constructor <;>
      simp [handle401Auth, handle401P3, hu, containsSeg_append_self,
            endsWithSeg_append_self]
  · intro h
    by_cases hc : (status == some 401 && !o.retryFlag
        && !containsSeg refreshSeg o.url) = true
    · simp only [handle401Auth, hc, if_pos] at h
      have hm : m = { o with retryFlag := true } := by
        exact (InterceptAction.refreshAndRetry.injEq _ _).mp h.symm
      subst hm
      exact ⟨rfl, by simp [handle401Auth]⟩
    · simp [handle401Auth, hc] at h
  · intro h
    by_cases hc : (status != some 401 || o.retryFlag
        || endsWithSeg refreshSeg o.url) = true
    · simp [handle401P3, hc] at h
    · simp only [handle401P3, hc, if_neg, Bool.not_eq_true] at h
      have hm : m = { o with retryFlag := true } := by
        exact (InterceptAction.refreshAndRetry.injEq _ _).mp h.symm
      subst hm
      exact ⟨rfl, by simp [handle401P3]⟩

/-- Witness for C7: a 401 for a request already marked `_retry` (here
the marked retry of a first 401) is propagated by both variants. -/
theorem interceptor_401_at_most_once_witness :
    handle401Auth (some 401) (some ⟨true, "me/".toList⟩) = .propagate
    ∧ handle401P3 (some 401) (some ⟨true, "me/".toList⟩) = .propagate :=
  (interceptor_401_at_most_once (some 401) (some 401) ⟨true, "me/".toList⟩
      ⟨true, "me/".toList⟩ []).1 rfl

/-! ## `authApi.logout`

`src/frontend/src/api/auth.ts` lines 265-273, `src/unnamed/part_003`
lines 208-216, `src/unnamed/part_002` lines 17-23. -/

/-- Result of a logout call: how the returned promise settles, the
stored access token afterwards, and the outcome of the inner HTTP call
that the catch (where present) swallowed. -/
structure LogoutTrace where
  result : RunResult Unit
  token : Option String
  inner : RunResult Unit
deriving DecidableEq, Repr

/-- auth.ts logout: `try { await withCsrfRetry(() => post('logout/')) }
catch (error) { dev warn } finally { setAccessToken(null) }` - every
inner outcome is swallowed, the token is always cleared, and the
returned promise always resolves. -/
def logoutAuth (env : Nat → CallOutcome Unit) (tok : Option String) : LogoutTrace :=
  ⟨.ok (), none, (withCsrfRetryAuth env).result⟩

/-- part_003 logout: `try { await withCsrfRetry(async () =>
post('logout/')) } catch { return } finally { setAccessToken(null) }` -
same shape with the part_003 retry wrapper. -/
def logoutP3 (env : Nat → CallOutcome Unit) (tok : Option String) : LogoutTrace :=
  ⟨.ok (), none, (withCsrfRetryP3 env).result⟩

/-- part_002 logout: `try { await apiClient.post('/auth/logout/', ...) }
finally { setAccessToken(null) }` - there is no catch, so the `finally`
clears the token but a failure of the POST propagates to the caller. -/
def logoutP2 (out : CallOutcome Unit) (tok : Option String) : LogoutTrace :=
  match out with
  | .ok _ => ⟨.ok (), none, .ok ()⟩
  | .err e => ⟨.error e, none, .error e⟩

/-- A generic server failure for the logout POST. -/
def serverErr : ReqError := ⟨true, some ⟨500, none, "Internal Server Error"⟩⟩

/-- Claim C8 counterexample: in the part_002 variant a failing logout
POST clears the token but the logout promise itself rejects with the
server failure, contrary to the claim that logout never rejects. -/
theorem logout_p2_rejects_cex :
    logoutP2 (.err serverErr) (some "tok")
      = ⟨.error serverErr, none, .error serverErr⟩ := by
  decide

/-- Claim C8 as amended: every logout variant clears the in-memory
access token unconditionally - after the call the stored token is
`none` whether the HTTP request succeeded or failed; the auth.ts and
part_003 variants additionally swallow every server failure, so their
logout never rejects, while the part_002 variant (`try`/`finally`
without `catch`) propagates a failing POST to its caller. -/
theorem logout_clears_token (env : Nat → CallOutcome Unit)
    (tok : Option String) (e : ReqError) :
    (logoutAuth env tok).token = none
    ∧ (logoutAuth env tok).result = .ok ()
    ∧ (logoutP3 env tok).token = none
    ∧ (logoutP3 env tok).result = .ok ()
    ∧ (logoutP2 (.ok ()) tok).token = none
    ∧ (logoutP2 (.ok ()) tok).result = .ok ()
    ∧ (logoutP2 (.err e) tok).token = none
    ∧ (logoutP2 (.err e) tok).result = .error e := by
  exact ⟨rfl, rfl, rfl, rfl, rfl, rfl, rfl, rfl⟩

/-! ## `authApi.getCurrentUser`

`src/frontend/src/api/auth.ts` lines 275-286, `src/unnamed/part_003`
lines 218-230, `src/unnamed/part_002` lines 25-33. -/

/-- Result of a getCurrentUser call: the settled value (`some` user,
`none` for "not authenticated", or a propagated error) and the stored
access token afterwards. -/
structure MeTrace where
  result : RunResult (Option User)
  token : Option String
deriving DecidableEq, Repr

/-- auth.ts getCurrentUser: a successful `GET me/` returns the user; in
the catch, `axios.isAxiosError(error) && error.response?.status === 401`
clears the token and returns `null`; every other failure goes to
`handleError`, which always throws (its own 401 branch is unreachable
here) and leaves the token alone. -/
def getCurrentUserAuth (out : CallOutcome User) (tok : Option String) : MeTrace :=
  match out with
  | .ok u => ⟨.ok (some u), tok⟩
  | .err e =>
    if e.isAxios && e.respStatus == some 401 then ⟨.ok none, none⟩
    else ⟨.error e, tok⟩

/-- part_003 getCurrentUser: same shape, but the catch checks only
`(error as ApiError).response?.status === 401`, without
`axios.isAxiosError`. -/
def getCurrentUserP3 (out : CallOutcome User) (tok : Option String) : MeTrace :=
  match out with
  | .ok u => ⟨.ok (some u), tok⟩
  | .err e =>
    if e.respStatus == some 401 then ⟨.ok none, none⟩
    else ⟨.error e, tok⟩

/-- part_002 getCurrentUser: `if (e?.response?.status === 401) return
null; throw e` - the module token (kept in its `client.ts`) is not
touched by this function on either path. -/
def getCurrentUserP2 (out : CallOutcome User) (tok : Option String) : MeTrace :=
  match out with
  | .ok u => ⟨.ok (some u), tok⟩
  | .err e =>
    if e.respStatus == some 401 then ⟨.ok none, tok⟩
    else ⟨.error e, tok⟩

/-- Claim C9: `getCurrentUser` returns `null` exactly when the server
answers HTTP 401 - and in the variants that keep the access token in the
same module (auth.ts and part_003) that path also clears it - while
every other failure is raised as an error with the token untouched, and
a successful response returns the user unchanged.  The part_002 variant
keeps no token in its module; its function returns `null` on 401 and
re-throws anything else without touching client state. -/
theorem getCurrentUser_null_iff_401 (u : User) (tok : Option String) (e : ReqError) :
    (getCurrentUserAuth (.ok u) tok = ⟨.ok (some u), tok⟩
      ∧ getCurrentUserP3 (.ok u) tok = ⟨.ok (some u), tok⟩
      ∧ getCurrentUserP2 (.ok u) tok = ⟨.ok (some u), tok⟩)
    ∧ (e.isAxios = true → e.respStatus = some 401 →
        getCurrentUserAuth (.err e) tok = ⟨.ok none, none⟩)
    ∧ (¬ (e.isAxios = true ∧ e.respStatus = some 401) →
        getCurrentUserAuth (.err e) tok = ⟨.error e, tok⟩)
    ∧ (e.respStatus = some 401 →
        getCurrentUserP3 (.err e) tok = ⟨.ok none, none⟩
        ∧ getCurrentUserP2 (.err e) tok = ⟨.ok none, tok⟩)
    ∧ (e.respStatus ≠ some 401 →
        getCurrentUserP3 (.err e) tok = ⟨.error e, tok⟩
        ∧ getCurrentUserP2 (.err e) tok = ⟨.error e, tok⟩) := by
  refine ⟨⟨rfl, rfl, rfl⟩, ?_, ?_, ?_, ?_⟩
  · intro ha h401
    simp [getCurrentUserAuth, ha, h401]
  · intro hne
    rcases Decidable.not_and_iff_or_not.mp hne with ha | h401
    · have ha' : e.isAxios = false := by simpa using ha
      simp [getCurrentUserAuth, ha']
    · simp [getCurrentUserAuth, h401]
  · intro h401
    constructor <;> simp [getCurrentUserP3, getCurrentUserP2, h401]
  · intro h401
    constructor <;> simp [getCurrentUserP3, getCurrentUserP2, h401]

/-- Witness for C9: an axios 401 makes the auth.ts variant return the
"not authenticated" value and clear the token. -/
theorem getCurrentUser_null_iff_401_witness :
    getCurrentUserAuth (.err ⟨true, some ⟨401, none, "Unauthorized"⟩⟩) (some "tok")
      = ⟨.ok none, none⟩ :=
  (getCurrentUser_null_iff_401 ⟨0⟩ (some "tok")
      ⟨true, some ⟨401, none, "Unauthorized"⟩⟩).2.1 rfl rfl

/-! ## Password strength (`checkPasswordStrength`)

`src/frontend/src/api/auth.ts` lines 551-578 and `src/unnamed/part_003`
lines 313-322.  The auth.ts variant adds `0.5` to the score for length
at least 16 (capped at 5) and floors on return, so the running score is
kept here in half-points: `strengthScore2` is twice the JavaScript
`score` after the bonus, `Math.floor(score)` is `strengthScore2 / 2`,
and `score >= 4` is `8 ≤ strengthScore2`.  JavaScript string length is
modelled as the number of characters, and the regex classes `[a-z]`,
`[A-Z]`, `\d`, `[^a-zA-Z0-9]` by the corresponding ASCII character
predicates. -/

/-- The five-check base score shared by both variants: one point each
for length at least 12, a lowercase letter, an uppercase letter, a
digit and a special (non-alphanumeric) character. -/
def strengthBase (password : String) : Nat :=
  (if 12 ≤ password.toList.length then 1 else 0)
  + (if password.toList.any Char.isLower then 1 else 0)
  + (if password.toList.any Char.isUpper then 1 else 0)
  + (if password.toList.any Char.isDigit then 1 else 0)
  + (if password.toList.any (fun c => !c.isAlphanum) then 1 else 0)

/-- The auth.ts accumulated score in half-points, after the line-572
bonus `if (password.length >= 16) score = Math.min(score + 0.5, 5)`. -/
def strengthScore2 (password : String) : Nat :=
  if 16 ≤ password.toList.length then min (2 * strengthBase password + 1) 10
  else 2 * strengthBase password

/-- The feedback messages accumulated by the failed checks, in source
order (identical strings in both variants). -/
def strengthFeedback (password : String) : List String :=
  (if 12 ≤ password.toList.length then [] else ["Use at least 12 characters"])
  ++ (if password.toList.any Char.isLower then [] else ["Add lowercase letters"])
  ++ (if password.toList.any Char.isUpper then [] else ["Add uppercase letters"])
  ++ (if password.toList.any Char.isDigit then [] else ["Add numbers"])
  ++ (if password.toList.any (fun c => !c.isAlphanum) then []
      else ["Add special characters"])

/-- `checkPasswordStrength` of auth.ts lines 551-578: the empty password
short-circuits to score 0 with `['Enter a password']`; otherwise the
returned score is `Math.max(0, Math.floor(score))` - the floor of a sum
of non-negative terms, so the `max` is the identity and the result is
`strengthScore2 / 2` - and the feedback is suppressed when the
accumulated score reaches 4 (`8 ≤ strengthScore2`). -/
def checkPasswordStrength (password : String) : Nat × List String :=
  if password = "" then (0, ["Enter a password"])
  else (strengthScore2 password / 2,
        if 8 ≤ strengthScore2 password then [] else strengthFeedback password)

/-- `authApi.checkPasswordStrength` of part_003 lines 313-322: no empty
special-case, no length-16 bonus, no floor (the score is already a
natural number, so `Math.max(0, score)` is the identity), and the
feedback is always returned. -/
def checkPasswordStrengthP3 (password : String) : Nat × List String :=
  (strengthBase password, strengthFeedback password)

theorem strengthBase_le (pw : String) : strengthBase pw ≤ 5 := by
  unfold strengthBase
  split_ifs <;> omega

theorem strengthScore2_le (pw : String) : strengthScore2 pw ≤ 10 := by
  have hb := strengthBase_le pw
  unfold strengthScore2
  split_ifs
  · exact Nat.min_le_right _ _
  · omega

theorem strengthFeedback_nil (pw : String) (h : strengthFeedback pw = []) :
    strengthBase pw = 5 := by
  simp only [strengthFeedback] at h
  simp only [strengthBase]
  split_ifs at h <;> simp_all

theorem strengthScore2_of_feedback_nil (pw : String)
    (h : strengthFeedback pw = []) : 8 ≤ strengthScore2 pw := by
  have hb := strengthFeedback_nil pw h
  unfold strengthScore2
  rw [hb]
  split_ifs <;> decide

/-- Claim C10: `checkPasswordStrength` is total (a total function of the
password) and bounded - every password yields an integer score between 0
and 5, with a feedback list, in both variants (the scores are naturals,
so the lower bound is by type); the empty password yields score 0 with
feedback `['Enter a password']` in the auth.ts variant; and in the
auth.ts variant (the one that suppresses feedback) the returned feedback
list is empty exactly when the accumulated score is at least 4, i.e.
`8 ≤ strengthScore2`. -/
theorem checkPasswordStrength_bounds (pw : String) :
    (checkPasswordStrength pw).1 ≤ 5
    ∧ (checkPasswordStrengthP3 pw).1 ≤ 5
    ∧ checkPasswordStrength "" = (0, ["Enter a password"])
    ∧ ((checkPasswordStrength pw).2 = [] ↔ 8 ≤ strengthScore2 pw) := by
  refine ⟨?_, strengthBase_le pw, by decide, ?_⟩
  · unfold checkPasswordStrength
    have h2 := strengthScore2_le pw
    split_ifs <;> simp <;> omega
  · by_cases hpw : pw = ""
    · subst hpw; decide
    · simp only [checkPasswordStrength, if_neg hpw]
      by_cases h8 : 8 ≤ strengthScore2 pw
      · simp [h8]
      · simp only [if_neg h8]
        simp only [h8, iff_false]
        intro hfb
        exact h8 (strengthScore2_of_feedback_nil pw hfb)
